import Mathlib

/-!
Verification development for the XLA-compiler benchmark log-to-metrics engine
(`comparative_benchmark/xla_compiler/run_benchmarks.py`).

The Python source extracts timing and memory metrics from the free-form log
output of an external benchmarking tool and reduces them to a summary record.
We embed the log text at the token level: each interesting log line is
represented by the data the fixed regular expressions of the source would
capture from it (timestamps, captured decimal values, byte counts), and
`findall` over the raw text becomes a `filterMap` over the line list.
Python floats are modelled as exact rationals; Python exceptions
(`assert`, `StatisticsError`, `ValueError`) are modelled by `Except String`.
-/

/-- Timestamp fields captured by `LOG_TIME_REGEXP`
(`^(\d{4}-\d{2}-\d{2}) (\d{2}):(\d{2}):(\d{2}\.\d+):`): hours and minutes as
two-digit integers, seconds (with mandatory fractional part) as a rational.
The date group is captured but discarded by `_parse_log_time`, so we omit it. -/
structure LogTs where
  h : ℕ
  m : ℕ
  s : ℚ
deriving DecidableEq

/-- Units of `TIME_UNITS`, the unit alternatives of `TIME_REGEXP`. -/
inductive TimeUnit where
  | us | ms | s | min | h
deriving DecidableEq

/-- `TIME_UNITS = {"us": 1e-3, "ms": 1, "s": 1e3, "min": 60 * 1e3, "h": 3600 * 1e3}`:
the multiplicative factor normalising each unit to milliseconds. -/
def TimeUnit.factor : TimeUnit → ℚ
  | .us => 1 / 1000
  | .ms => 1
  | .s => 1000
  | .min => 60 * 1000
  | .h => 3600 * 1000

/-- One line of the GPU tool log, abstracted to which of the fixed GPU regular
expressions it matches and what the matched text carries:
`start`/`stop` lines match `GPU_LATENCY_START_REGEXP` / `GPU_LATENCY_STOP_REGEXP`
and carry the standard log-time prefix when present (`none` models a marker
line whose prefix does not match `LOG_TIME_REGEXP`, on which `_parse_log_time`
raises); `compile` lines match `GPU_COMPILE_TIME_REGEXP` and carry the
`time: <v> <unit>` token of the matched text when one is present; `peak` lines
match `GPU_PEAK_MEMORY_REGEXP`, whose matched text always contains the
`<n> bytes` token captured by `SIZE_REGEXP`. -/
inductive GpuLine where
  | start (ts : Option LogTs)
  | stop (ts : Option LogTs)
  | compile (tok : Option (ℚ × TimeUnit))
  | peak (bytes : ℕ)
  | other
deriving DecidableEq

/-- `_parse_log_time`: `1000 * (int(h) * 3600 + int(m) * 60 + float(s))` on the
groups of `LOG_TIME_REGEXP`; the `assert match` raises when the line has no
standard timestamp prefix. -/
def parseLogTime : Option LogTs → Except String ℚ
  | none => .error "Unable to parse log time"
  | some t => .ok (1000 * ((t.h : ℚ) * 3600 + (t.m : ℚ) * 60 + t.s))

/-- `_parse_log_elapsed_time`: parses both lines, then
`end += 86400 if end < start else 0` (the next-day correction — note the
source adds the constant `86400` to a quantity measured in milliseconds)
and returns `end - start`. -/
def parseLogElapsedTime (line1 line2 : Option LogTs) : Except String ℚ :=
  match parseLogTime line1 with
  | .error e => .error e
  | .ok start =>
    match parseLogTime line2 with
    | .error e => .error e
    | .ok endT =>
      let endT := if endT < start then endT + 86400 else endT
      .ok (endT - start)

/-- `GPU_LATENCY_START_REGEXP.findall(raw_output)`: the start-marker lines in
order of appearance. -/
def startMatches (log : List GpuLine) : List (Option LogTs) :=
  log.filterMap fun
    | .start ts => some ts
    | _ => none

/-- `GPU_LATENCY_STOP_REGEXP.findall(raw_output)`: the stop-marker lines in
order of appearance. -/
def stopMatches (log : List GpuLine) : List (Option LogTs) :=
  log.filterMap fun
    | .stop ts => some ts
    | _ => none

/-- A Python list comprehension over a fallible body: evaluates the body left
to right, propagating the first raised exception. -/
def mapExcept (f : α → Except String β) : List α → Except String (List β)
  | [] => .ok []
  | x :: xs =>
    match f x with
    | .error e => .error e
    | .ok y =>
      match mapExcept f xs with
      | .error e => .error e
      | .ok ys => .ok (y :: ys)

/-- `_parse_latencies`: if the start- and stop-marker counts differ, or differ
from the expected iteration count, print an error and return `[]`; otherwise
compute `_parse_log_elapsed_time(t1, t2)` for each zipped pair. -/
def parseLatencies (log : List GpuLine) (expected_iterations : ℕ) :
    Except String (List ℚ) :=
  let s := startMatches log
  let e := stopMatches log
  if s.length ≠ e.length then .ok []
  else if s.length ≠ expected_iterations then .ok []
  else mapExcept (fun p => parseLogElapsedTime p.1 p.2) (s.zip e)

/-- `_parse_log_duration`: looks for the `time: <v> <unit>` token in the
matched compile line (`assert` raises when absent) and normalises to
milliseconds via `TIME_UNITS`. -/
def parseLogDuration : Option (ℚ × TimeUnit) → Except String ℚ
  | none => .error "Unable to parse the time on log line"
  | some (v, u) => .ok (v * u.factor)

/-- `_parse_log_size`: the byte count captured by `SIZE_REGEXP`, converted to
megabytes (`float(match.group(1)) * 1e-6`). -/
def parseLogSize (bytes : ℕ) : ℚ := (bytes : ℚ) / 1000000

/-- `GPU_COMPILE_TIME_REGEXP.findall(raw_output)`. -/
def compileMatches (log : List GpuLine) : List (Option (ℚ × TimeUnit)) :=
  log.filterMap fun
    | .compile tok => some tok
    | _ => none

/-- `GPU_PEAK_MEMORY_REGEXP.findall(raw_output)`. -/
def peakMatches (log : List GpuLine) : List ℕ :=
  log.filterMap fun
    | .peak b => some b
    | _ => none

/-- `_parse_compile_time`: sums `_parse_log_duration` over every compile-line
match (an empty match list sums to `0`) and scales by `1e-3` to seconds. -/
def parseCompileTime (log : List GpuLine) : Except String ℚ :=
  match mapExcept parseLogDuration (compileMatches log) with
  | .error e => .error e
  | .ok ms => .ok (ms.sum / 1000)

/-- `_parse_peak_memory`: `assert matches` raises when no peak-memory line is
found; otherwise the size of `matches[-1]`, the last occurrence. -/
def parsePeakMemory (log : List GpuLine) : Except String ℚ :=
  match (peakMatches log).getLast? with
  | none => .error "Unable to find peak memory"
  | some b => .ok (parseLogSize b)

/-- Python `min(latencies, default=None)`. -/
def pyMin : List ℚ → Option ℚ
  | [] => none
  | x :: xs => some (xs.foldl min x)

/-- Python `max(latencies, default=None)`. -/
def pyMax : List ℚ → Option ℚ
  | [] => none
  | x :: xs => some (xs.foldl max x)

/-- `statistics.mean`: arithmetic mean; in the source it is only reached under
the `if latencies` guard, so the empty case never arises there. -/
def pyMean (xs : List ℚ) : ℚ := xs.sum / xs.length

/-- `statistics.median`: sorts the data; odd count takes the middle element,
even count averages the two middle elements. -/
def pyMedian (xs : List ℚ) : ℚ :=
  let sorted := xs.insertionSort (· ≤ ·)
  let n := sorted.length
  if n % 2 = 1 then sorted.getD (n / 2) 0
  else (sorted.getD (n / 2 - 1) 0 + sorted.getD (n / 2) 0) / 2

/-- Sample variance with `n - 1` denominator. `statistics.stdev` raises
`StatisticsError` on fewer than two data points and otherwise returns the
square root of this quantity; the square root of a rational is irrational in
general, so the development tracks the standard deviation by its square.
Presence, absence and the error condition are exactly those of the stddev
computation in the source. -/
def stdevSq (xs : List ℚ) : Except String ℚ :=
  if xs.length < 2 then .error "stdev requires at least two data points"
  else .ok ((xs.map (fun x => (x - pyMean xs) ^ 2)).sum / ((xs.length : ℚ) - 1))

/-- The expression `statistics.stdev(latencies) if latencies else None` used
for the stddev entry of both result dictionaries (tracked by its square). -/
def stdevField (latencies : List ℚ) : Except String (Option ℚ) :=
  if latencies.isEmpty then .ok none
  else
    match stdevSq latencies with
    | .error e => .error e
    | .ok v => .ok (some v)

/-- The five latency-derived entries shared verbatim by the GPU and CPU result
dictionaries (`min_latency_ms` … `stddev_latency_ms`); the stddev entry is
tracked by its square. -/
structure LatencyFields where
  min_latency_ms : Option ℚ
  max_latency_ms : Option ℚ
  mean_latency_ms : Option ℚ
  median_latency_ms : Option ℚ
  stddev_latency_ms_sq : Option ℚ
deriving DecidableEq

/-- Builds the five latency-derived entries exactly as both result
dictionaries do: `min`/`max` with `default=None`, `mean`/`median` guarded by
`if latencies else None`, and the stddev expression (which raises for a
singleton list). -/
def latencyStats (latencies : List ℚ) : Except String LatencyFields :=
  match stdevField latencies with
  | .error e => .error e
  | .ok sd =>
    .ok { min_latency_ms := pyMin latencies
          max_latency_ms := pyMax latencies
          mean_latency_ms := if latencies.isEmpty then none else some (pyMean latencies)
          median_latency_ms := if latencies.isEmpty then none else some (pyMedian latencies)
          stddev_latency_ms_sq := sd }

/-- The result dictionary of `_run_compiler_benchmark_gpu`. -/
structure GpuMetrics where
  compile_time_s : Option ℚ
  latency : LatencyFields
  benchmark_iterations : ℕ
  device_memory_peak_mb : ℚ
deriving DecidableEq

/-- The result dictionary of `_run_compiler_benchmark_cpu` (no memory entry;
`compile_time_s` is `None` when no compile-time line matched). -/
structure CpuMetrics where
  compile_time_s : Option ℚ
  latency : LatencyFields
  benchmark_iterations : ℕ
deriving DecidableEq

/-- The metrics computation of `_run_compiler_benchmark_gpu` after the
subprocess call: parse latencies, compile time and peak memory from the
captured output, then build the result dictionary (whose stddev entry can
raise). The GPU variant always stores a numeric compile time. -/
def gpuRun (log : List GpuLine) (benchmark_iterations : ℕ) :
    Except String GpuMetrics :=
  match parseLatencies log benchmark_iterations with
  | .error e => .error e
  | .ok latencies =>
    match parseCompileTime log with
    | .error e => .error e
    | .ok compile_time_s =>
      match parsePeakMemory log with
      | .error e => .error e
      | .ok peak_memory_usage =>
        match latencyStats latencies with
        | .error e => .error e
        | .ok fields =>
          .ok { compile_time_s := some compile_time_s
                latency := fields
                benchmark_iterations := benchmark_iterations
                device_memory_peak_mb := peak_memory_usage }

/-- One line of the CPU tool log, abstracted to which of the two CPU regular
expressions it matches: `compiled v` is a line matching
`CPU_COMPILE_TIME_REGEXP` (`... compiled and ran in (.*)s.`) whose capture
parses as the float `v`; `runner v` is a line matching `CPU_LATENCY_REGEXP`
(`execution time for runner [A-Za-z]*: (.*)s.`) whose capture parses as `v`. -/
inductive CpuLine where
  | compiled (v : ℚ)
  | runner (v : ℚ)
  | other
deriving DecidableEq

/-- `CPU_COMPILE_TIME_REGEXP.findall(result_text)`, each capture parsed by
`float`. -/
def compiledCaptures (log : List CpuLine) : List ℚ :=
  log.filterMap fun
    | .compiled v => some v
    | _ => none

/-- `CPU_LATENCY_REGEXP.findall(result_text)`, each capture parsed by
`float`. -/
def runnerCaptures (log : List CpuLine) : List ℚ :=
  log.filterMap fun
    | .runner v => some v
    | _ => none

/-- `latencies = [float(match) * 1000 for match in matches]` of the CPU
variant. -/
def cpuLatencies (log : List CpuLine) : List ℚ :=
  (runnerCaptures log).map (· * 1000)

/-- The metrics computation of `_run_compiler_benchmark_cpu` after the
subprocess call: `compile_time_latency = float(matches[0]) if matches else
None`, then the iteration-count `assert` (raising on mismatch), the `× 1000`
latency conversion, and the result dictionary. -/
def cpuRun (log : List CpuLine) (benchmark_iterations : ℕ) :
    Except String CpuMetrics :=
  if (runnerCaptures log).length ≠ benchmark_iterations then
    .error "Expected latency count differs from found latency count"
  else
    match latencyStats (cpuLatencies log) with
    | .error e => .error e
    | .ok fields =>
      .ok { compile_time_s := (compiledCaptures log).head?
            latency := fields
            benchmark_iterations := benchmark_iterations }

/-- One benchmark case as the orchestrator sees it: its accelerator class
(`benchmark.target_device.accelerator_type`), whether its HLO dump file is
present on disk, and the log text the external tool would emit for it (the
subprocess being external, its output is part of the benchmark model). -/
structure Benchmark where
  name : String
  accelerator : String
  hloDumpExists : Bool
  gpuLog : List GpuLine
  cpuLog : List CpuLine

/-- The metrics part of one `utils.BenchmarkResult` appended by the
orchestrator: the benchmark name together with whichever variant record was
produced. -/
structure BenchmarkResult where
  name : String
  gpuMetrics : Option GpuMetrics
  cpuMetrics : Option CpuMetrics

/-- `_run`: dispatch on the accelerator class — `gpu` and `cpu` run the
corresponding variant; any other class raises
`ValueError(Unsupported accelerator)` before the subprocess is launched. -/
def runBenchmark (iterations : ℕ) (b : Benchmark) :
    Except String BenchmarkResult :=
  if b.accelerator = "gpu" then
    match gpuRun b.gpuLog iterations with
    | .error e => .error e
    | .ok m => .ok { name := b.name, gpuMetrics := some m, cpuMetrics := none }
  else if b.accelerator = "cpu" then
    match cpuRun b.cpuLog iterations with
    | .error e => .error e
    | .ok m => .ok { name := b.name, gpuMetrics := none, cpuMetrics := some m }
  else .error ("Unsupported accelerator: " ++ b.accelerator)

/-- The benchmark loop of `main` (lines 331-343): for each benchmark in order,
raise if its HLO dump is missing, run it, and append its result to the output
file. No exception is caught in the loop, so the first raised exception
terminates `main`; results appended before it persist in the output file and
are carried on the error branch. `acc` models the results appended so far. -/
def mainLoop (iterations : ℕ) :
    List Benchmark → List BenchmarkResult →
    Except (String × List BenchmarkResult) (List BenchmarkResult)
  | [], acc => .ok acc
  | b :: bs, acc =>
    if b.hloDumpExists = false then
      .error ("HLO dump not found: " ++ b.name, acc)
    else
      match runBenchmark iterations b with
      | .error e => .error (e, acc)
      | .ok r => mainLoop iterations bs (acc ++ [r])

/-- A one-iteration GPU log: one timestamped start marker at 01:00:00.0 and
one timestamped stop marker at 01:00:01.0. -/
def demoGpuLog : List GpuLine :=
  [GpuLine.start (some ⟨1, 0, 0⟩), GpuLine.stop (some ⟨1, 0, 1⟩)]

/-- The host-variant scenario log of the specification: two compile-time lines
capturing 1.23 and 4.56, then two runner lines capturing 0.10 and 0.12. -/
def scenarioCpuLog : List CpuLine :=
  [CpuLine.compiled (123 / 100), CpuLine.compiled (456 / 100),
   CpuLine.runner (1 / 10), CpuLine.runner (12 / 100)]

/-- A benchmark whose accelerator class has no parser, making `_run` raise
before any subprocess runs. -/
def badBenchmark : Benchmark :=
  { name := "bad", accelerator := "tpu", hloDumpExists := true,
    gpuLog := [], cpuLog := [] }

/-- A benchmark that runs to completion on its own (cpu variant, empty log,
zero iterations). -/
def goodBenchmark : Benchmark :=
  { name := "good", accelerator := "cpu", hloDumpExists := true,
    gpuLog := [], cpuLog := [] }

/-- Inversion for `gpuRun`: a produced GPU record comes from successful
latency, compile-time and peak-memory parses and successful latency
aggregation, and is exactly the dictionary built from them. -/
theorem gpuRun_ok_elim (glog : List GpuLine) (n : ℕ) (r : GpuMetrics)
    (h : gpuRun glog n = .ok r) :
    ∃ lat ct pk fields,
      parseLatencies glog n = .ok lat ∧ parseCompileTime glog = .ok ct ∧
      parsePeakMemory glog = .ok pk ∧ latencyStats lat = .ok fields ∧
      r = { compile_time_s := some ct, latency := fields,
            benchmark_iterations := n, device_memory_peak_mb := pk } := by
  unfold gpuRun at h
  split at h
  · simp at h
  rename_i lat hlat
  split at h
  · simp at h
  rename_i ct hct
  split at h
  · simp at h
  rename_i pk hpk
  split at h
  · simp at h
  rename_i fields hfields
  injection h with h2
  exact ⟨lat, ct, pk, fields, hlat, hct, hpk, hfields, h2.symm⟩

/-- Inversion for `cpuRun`: a produced CPU record means the runner-line count
matched the expected iteration count, the latency aggregation succeeded, and
the record is exactly the dictionary built from them. -/
theorem cpuRun_ok_elim (clog : List CpuLine) (n : ℕ) (r : CpuMetrics)
    (h : cpuRun clog n = .ok r) :
    (runnerCaptures clog).length = n ∧ ∃ fields,
      latencyStats (cpuLatencies clog) = .ok fields ∧
      r = { compile_time_s := (compiledCaptures clog).head?, latency := fields,
            benchmark_iterations := n } := by
  unfold cpuRun at h
  split at h
  · simp at h
  rename_i hn
  split at h
  · simp at h
  rename_i fields hfields
  injection h with h2
  exact ⟨Decidable.not_not.mp hn, fields, hfields, h2.symm⟩

/-- The latency aggregation on the empty sample list: all five entries
explicitly absent. -/
theorem latencyStats_nil :
    latencyStats [] = .ok ⟨none, none, none, none, none⟩ := rfl

/-- A fallible comprehension whose body succeeds on every element succeeds as
a whole, producing one output per input in order. -/
theorem mapExcept_ok_of_forall (f : α → Except String β) (xs : List α)
    (h : ∀ p ∈ xs, ∃ q, f p = .ok q) :
    ∃ l, mapExcept f xs = .ok l ∧ l.length = xs.length ∧
      ∀ p ∈ xs.zip l, f p.1 = .ok p.2 := by
  induction xs with
  | nil => exact ⟨[], rfl, rfl, by simp⟩
  | cons x xs ih =>
    obtain ⟨y, hy⟩ := h x (List.mem_cons_self x xs)
    obtain ⟨l, hl, hlen, hzip⟩ := ih fun p hp => h p (List.mem_cons_of_mem x hp)
    refine ⟨y :: l, ?_, by simp [hlen], ?_⟩
    · simp [mapExcept, hy, hl]
    · intro p hp
      rw [List.zip_cons_cons] at hp
      rcases List.mem_cons.mp hp with h1 | h2
      · rw [h1]; exact hy
      · exact hzip p h2

/-- Claim C1 (code bug): for the start line timestamped 23:59:59.0 and the end
line timestamped 00:00:00.0, the parsed times are 86 399 000 ms and 0 ms, so
`end < start`; the claim (and the next-day-correction comment of the source)
requires the elapsed time `(end + 86 400 000) - start = 1000` ms, but the code
adds only `86400` to the millisecond value and returns `-86 312 600` ms. -/
theorem elapsed_time_rollover_unit_bug :
    parseLogTime (some ⟨23, 59, 59⟩) = .ok 86399000 ∧
    parseLogTime (some ⟨0, 0, 0⟩) = .ok 0 ∧
    parseLogElapsedTime (some ⟨23, 59, 59⟩) (some ⟨0, 0, 0⟩) =
      .ok (-86312600) ∧
    (-86312600 : ℚ) = (0 + 86400) - 86399000 ∧
    (-86312600 : ℚ) ≠ (0 + 86400000) - 86399000 := by
  refine ⟨?_, ?_, ?_, by norm_num, by norm_num⟩
  · norm_num [parseLogTime]
  · norm_num [parseLogTime]
  · norm_num [parseLogElapsedTime, parseLogTime]

/-- Claim C2 (code bug): for the well-formed timestamped lines 23:59:59.0 and
00:00:00.0 — the midnight-crossing case in which the first time-of-day is
later than the second — the computed elapsed time is `-86 312 600` ms, which
is negative, contradicting the claim that the elapsed time is always
non-negative. -/
theorem elapsed_time_negative_across_midnight :
    parseLogElapsedTime (some ⟨23, 59, 59⟩) (some ⟨0, 0, 0⟩) =
      .ok (-86312600) ∧
    (-86312600 : ℚ) < 0 := by
  refine ⟨?_, by norm_num⟩
  norm_num [parseLogElapsedTime, parseLogTime]

/-- Claim C3 (code bug): for every singleton latency-sample list the
aggregation does not succeed — the stddev entry of the result dictionary is
guarded only against the empty list, and `statistics.stdev` raises on a single
sample — so no record with stddev absent and min = max = mean = median = x is
returned; a one-iteration CPU run with one runner line fails the same way. -/
theorem single_sample_stdev_raises :
    (∀ x : ℚ, latencyStats [x] =
      .error "stdev requires at least two data points") ∧
    cpuRun [CpuLine.runner (1 / 10)] 1 =
      .error "stdev requires at least two data points" := by
  constructor
  · intro x
    simp [latencyStats, stdevField, stdevSq]
  · simp [cpuRun, cpuLatencies, runnerCaptures, latencyStats, stdevField,
      stdevSq, List.filterMap]

/-- Claim C6: whenever the count of runner-time occurrences in a host-variant
log differs from the expected iteration count, the CPU run raises (the
iteration-count assert) instead of returning a metrics record. -/
theorem cpu_iteration_mismatch_raises (clog : List CpuLine) (n : ℕ)
    (h : (runnerCaptures clog).length ≠ n) :
    cpuRun clog n =
      .error "Expected latency count differs from found latency count" := by
  unfold cpuRun
  simp [h]

/-- Witness for C6: the empty host log has zero runner-time occurrences, so a
one-iteration CPU run fails hard. -/
theorem cpu_iteration_mismatch_raises_witness :
    (runnerCaptures []).length ≠ 1 ∧
    cpuRun [] 1 =
      .error "Expected latency count differs from found latency count" :=
  ⟨by decide, cpu_iteration_mismatch_raises [] 1 (by decide)⟩

/-- Claim C4: in both parser variants, whenever the latency-sample sequence is
empty, the produced metrics record has all five latency-derived fields
explicitly absent (never a numeric default). -/
theorem empty_latency_fields_absent (glog : List GpuLine) (clog : List CpuLine)
    (n : ℕ) :
    (∀ r, parseLatencies glog n = .ok [] → gpuRun glog n = .ok r →
      r.latency = ⟨none, none, none, none, none⟩) ∧
    (∀ r, runnerCaptures clog = [] → cpuRun clog n = .ok r →
      r.latency = ⟨none, none, none, none, none⟩) := by
  constructor
  · intro r hemp hok
    obtain ⟨lat, ct, pk, fields, hlat, _, _, hfields, hr⟩ :=
      gpuRun_ok_elim glog n r hok
    rw [hemp] at hlat
    injection hlat with hlat2
    rw [← hlat2, latencyStats_nil] at hfields
    injection hfields with hf
    rw [hr]
    exact hf.symm
  · intro r hemp hok
    obtain ⟨_, fields, hfields, hr⟩ := cpuRun_ok_elim clog n r hok
    have hl : cpuLatencies clog = [] := by simp [cpuLatencies, hemp]
    rw [hl, latencyStats_nil] at hfields
    injection hfields with hf
    rw [hr]
    exact hf.symm

/-- Witness for C4: a GPU log with only a peak-memory line at zero expected
iterations yields an empty latency list and a record with all latency fields
absent, and likewise the empty CPU log at zero iterations. -/
theorem empty_latency_fields_absent_witness :
    parseLatencies [GpuLine.peak 1000000] 0 = .ok [] ∧
    (gpuRun [GpuLine.peak 1000000] 0).map GpuMetrics.latency =
      .ok ⟨none, none, none, none, none⟩ ∧
    runnerCaptures [] = [] ∧
    (cpuRun [] 0).map CpuMetrics.latency = .ok ⟨none, none, none, none, none⟩ := by
  have hg : gpuRun [GpuLine.peak 1000000] 0 = .ok
      { compile_time_s := some 0, latency := ⟨none, none, none, none, none⟩,
        benchmark_iterations := 0, device_memory_peak_mb := 1 } := by
    norm_num [gpuRun, parseLatencies, startMatches, stopMatches, parseCompileTime,
      compileMatches, parsePeakMemory, peakMatches, parseLogSize, mapExcept,
      latencyStats, stdevField, stdevSq, pyMin, pyMax, List.filterMap,
      List.isEmpty]
  have hc : cpuRun [] 0 = .ok
      { compile_time_s := none, latency := ⟨none, none, none, none, none⟩,
        benchmark_iterations := 0 } := rfl
  have hemp : parseLatencies [GpuLine.peak 1000000] 0 = .ok [] := rfl
  refine ⟨hemp, ?_, rfl, ?_⟩
  · rw [hg]
    exact congrArg Except.ok
      ((empty_latency_fields_absent [GpuLine.peak 1000000] [] 0).1 _ hemp hg)
  · rw [hc]
    exact congrArg Except.ok
      ((empty_latency_fields_absent [] [] 0).2 _ rfl hc)

/-- Claim C5: the accelerator-variant latency parser returns the empty list
whenever the start-marker count differs from the stop-marker count or from the
expected iteration count; otherwise (for marker lines whose elapsed-time
computation succeeds) it returns exactly the expected number of latencies, the
i-th obtained from the i-th aligned start/stop marker pair. -/
theorem parse_latencies_count_validation (glog : List GpuLine) (n : ℕ) :
    (((startMatches glog).length ≠ (stopMatches glog).length ∨
        (startMatches glog).length ≠ n) →
      parseLatencies glog n = .ok []) ∧
    ((startMatches glog).length = n → (stopMatches glog).length = n →
      (∀ p ∈ (startMatches glog).zip (stopMatches glog),
          ∃ q, parseLogElapsedTime p.1 p.2 = .ok q) →
      ∃ l, parseLatencies glog n = .ok l ∧ l.length = n ∧
        ∀ p ∈ ((startMatches glog).zip (stopMatches glog)).zip l,
          parseLogElapsedTime p.1.1 p.1.2 = .ok p.2) := by
  constructor
  · intro h
    simp only [parseLatencies]
    rcases h with h | h
    · rw [if_pos h]
    · by_cases h2 : (startMatches glog).length = (stopMatches glog).length
      · rw [if_neg (fun hc => hc h2), if_pos h]
      · rw [if_pos h2]
  · intro h1 h2 h3
    obtain ⟨l, hl, hlen, hzip⟩ :=
      mapExcept_ok_of_forall (fun p => parseLogElapsedTime p.1 p.2)
        ((startMatches glog).zip (stopMatches glog)) h3
    refine ⟨l, ?_, ?_, hzip⟩
    · simp only [parseLatencies]
      rw [if_neg (fun hc => hc (h1.trans h2.symm)),
        if_neg (fun hc => hc h1)]
      exact hl
    · rw [hlen, List.length_zip, h1, h2, Nat.min_self]

/-- Witness for C5: a log with one timestamped start/stop pair returns exactly
one latency at expected count one, and returns the empty list at expected
count zero (a count mismatch). -/
theorem parse_latencies_count_validation_witness :
    parseLatencies demoGpuLog 0 = .ok [] ∧
    (∃ l, parseLatencies demoGpuLog 1 = .ok l ∧ l.length = 1 ∧
      ∀ p ∈ ((startMatches demoGpuLog).zip (stopMatches demoGpuLog)).zip l,
        parseLogElapsedTime p.1.1 p.1.2 = .ok p.2) := by
  constructor
  · exact (parse_latencies_count_validation demoGpuLog 0).1 (Or.inr (by decide))
  · refine (parse_latencies_count_validation demoGpuLog 1).2 rfl rfl ?_
    intro p hp
    simp only [demoGpuLog, startMatches, stopMatches, List.filterMap,
      List.zip, List.zipWith, List.mem_singleton] at hp
    rw [hp]
    exact ⟨1000, by norm_num [parseLogElapsedTime, parseLogTime]⟩

/-- Counterexample to claim C7: in a batch whose first benchmark names an
unsupported accelerator, the orchestrator loop raises and the second (cpu)
benchmark is never processed — no result for it is appended — although the
same second benchmark processed alone yields a result. -/
theorem batch_abort_counterexample :
    mainLoop 0 [badBenchmark, goodBenchmark] [] =
      .error ("Unsupported accelerator: tpu", []) ∧
    mainLoop 0 [goodBenchmark] [] =
      .ok [⟨"good", none, some ⟨none, ⟨none, none, none, none, none⟩, 0⟩⟩] :=
  ⟨rfl, rfl⟩

/-- Claim C7 as amended: an error arising while processing one benchmark
aborts the batch — the loop stops at the first failing benchmark, results
appended before it persist, and the remaining benchmarks are not processed. -/
theorem batch_abort_on_error (iterations : ℕ) (b : Benchmark)
    (bs : List Benchmark) (acc : List BenchmarkResult) (e : String)
    (hd : b.hloDumpExists = true)
    (h : runBenchmark iterations b = .error e) :
    mainLoop iterations (b :: bs) acc = .error (e, acc) := by
  unfold mainLoop
  rw [hd]
  simp [h]

/-- Witness for the amended C7: the unsupported-accelerator benchmark placed
first aborts the two-benchmark batch with no result appended. -/
theorem batch_abort_on_error_witness :
    badBenchmark.hloDumpExists = true ∧
    runBenchmark 0 badBenchmark = .error "Unsupported accelerator: tpu" ∧
    mainLoop 0 [badBenchmark, goodBenchmark] [] =
      .error ("Unsupported accelerator: tpu", []) :=
  ⟨rfl, rfl, batch_abort_on_error 0 badBenchmark [goodBenchmark] [] _ rfl rfl⟩

/-- Claim C8: the host variant reports as compile time the value of the first
compile-time occurrence (later occurrences ignored) and converts each matched
runner-time seconds value to milliseconds by multiplying by 1000; on the
concrete scenario log (occurrences 1.23 and 4.56, runner times 0.10 and 0.12,
expected iterations 2) it yields compile_time_s = 1.23 and latencies
[100, 120] ms. -/
theorem cpu_compile_first_latency_scaled (clog : List CpuLine) (n : ℕ) :
    (∀ r, cpuRun clog n = .ok r →
      r.compile_time_s = (compiledCaptures clog).head?) ∧
    cpuLatencies scenarioCpuLog = [100, 120] ∧
    cpuRun scenarioCpuLog 2 = .ok
      ⟨some (123 / 100),
       ⟨some 100, some 120, some 110, some 110, some 200⟩, 2⟩ := by
  refine ⟨?_, ?_, ?_⟩
  · intro r h
    obtain ⟨_, fields, _, hr⟩ := cpuRun_ok_elim clog n r h
    rw [hr]
  · norm_num [cpuLatencies, runnerCaptures, scenarioCpuLog, List.filterMap]
  · norm_num [cpuRun, scenarioCpuLog, cpuLatencies, runnerCaptures,
      compiledCaptures, latencyStats, stdevField, stdevSq, pyMin, pyMax,
      pyMean, pyMedian, List.filterMap, List.isEmpty, List.insertionSort,
      List.orderedInsert]

/-- Witness for C8: on the scenario log the produced record reports the first
compile-time occurrence 1.23. -/
theorem cpu_compile_first_latency_scaled_witness :
    (cpuRun scenarioCpuLog 2).map CpuMetrics.compile_time_s =
      .ok (some (123 / 100)) := by
  obtain ⟨h1, h2, h3⟩ := cpu_compile_first_latency_scaled scenarioCpuLog 2
  rw [h3]
  exact congrArg Except.ok (h1 _ h3)

/-- Claim C9: for both parser variants, any produced metrics record reports
exactly the expected iteration count it was given, independently of the log
contents (in particular also when a marker-count mismatch leaves the latency
fields absent). -/
theorem benchmark_iterations_echoed (glog : List GpuLine) (clog : List CpuLine)
    (n : ℕ) :
    (∀ r, gpuRun glog n = .ok r → r.benchmark_iterations = n) ∧
    (∀ r, cpuRun clog n = .ok r → r.benchmark_iterations = n) := by
  constructor
  · intro r h
    obtain ⟨lat, ct, pk, fields, _, _, _, _, hr⟩ := gpuRun_ok_elim glog n r h
    rw [hr]
  · intro r h
    obtain ⟨_, fields, _, hr⟩ := cpuRun_ok_elim clog n r h
    rw [hr]

/-- Witness for C9: a GPU log with only a peak-memory line at expected count 5
produces a record (its marker counts are 0 on both sides, a mismatch with 5,
so all latency fields are absent) that still reports 5 iterations; the empty
CPU log at expected count 0 reports 0. -/
theorem benchmark_iterations_echoed_witness :
    (gpuRun [GpuLine.peak 1000000] 5).map GpuMetrics.benchmark_iterations =
      .ok 5 ∧
    (cpuRun [] 0).map CpuMetrics.benchmark_iterations = .ok 0 := by
  have hg : gpuRun [GpuLine.peak 1000000] 5 = .ok
      ⟨some 0, ⟨none, none, none, none, none⟩, 5, 1⟩ := by
    norm_num [gpuRun, parseLatencies, startMatches, stopMatches,
      parseCompileTime, compileMatches, parsePeakMemory, peakMatches,
      parseLogSize, mapExcept, latencyStats, stdevField, stdevSq, pyMin,
      pyMax, List.filterMap, List.isEmpty]
  have hc : cpuRun [] 0 = .ok ⟨none, ⟨none, none, none, none, none⟩, 0⟩ := rfl
  constructor
  · rw [hg]
    exact congrArg Except.ok
      ((benchmark_iterations_echoed [GpuLine.peak 1000000] [] 5).1 _ hg)
  · rw [hc]
    exact congrArg Except.ok ((benchmark_iterations_echoed [] [] 0).2 _ hc)

/-- Claim C10: an accelerator-variant log with no compile-time line reports a
compile time of exactly 0.0 (the sum over no matches), never absent, while a
host-variant log with no compile-time occurrence reports compile time as
absent (None). -/
theorem gpu_compile_zero_cpu_compile_absent (glog : List GpuLine)
    (clog : List CpuLine) (n : ℕ) :
    (compileMatches glog = [] →
      parseCompileTime glog = .ok 0 ∧
      ∀ r, gpuRun glog n = .ok r → r.compile_time_s = some 0) ∧
    (compiledCaptures clog = [] →
      ∀ r, cpuRun clog n = .ok r → r.compile_time_s = none) := by
  constructor
  · intro hemp
    have hct : parseCompileTime glog = .ok 0 := by
      simp only [parseCompileTime, hemp, mapExcept]
      norm_num
    refine ⟨hct, ?_⟩
    intro r h
    obtain ⟨lat, ct, pk, fields, _, hct2, _, _, hr⟩ := gpuRun_ok_elim glog n r h
    rw [hct] at hct2
    injection hct2 with h0
    rw [hr, ← h0]
  · intro hemp r h
    obtain ⟨_, fields, _, hr⟩ := cpuRun_ok_elim clog n r h
    rw [hr, hemp]
    rfl

/-- Witness for C10: the peak-memory-only GPU log has no compile-time line and
its record reports compile_time_s = 0; the empty CPU log has no compile-time
occurrence and its record reports compile_time_s absent. -/
theorem gpu_compile_zero_cpu_compile_absent_witness :
    compileMatches [GpuLine.peak 1000000] = [] ∧
    parseCompileTime [GpuLine.peak 1000000] = .ok 0 ∧
    (gpuRun [GpuLine.peak 1000000] 5).map GpuMetrics.compile_time_s =
      .ok (some 0) ∧
    compiledCaptures [] = [] ∧
    (cpuRun [] 0).map CpuMetrics.compile_time_s = .ok none := by
  have hg : gpuRun [GpuLine.peak 1000000] 5 = .ok
      ⟨some 0, ⟨none, none, none, none, none⟩, 5, 1⟩ := by
    norm_num [gpuRun, parseLatencies, startMatches, stopMatches,
      parseCompileTime, compileMatches, parsePeakMemory, peakMatches,
      parseLogSize, mapExcept, latencyStats, stdevField, stdevSq, pyMin,
      pyMax, List.filterMap, List.isEmpty]
  have hc : cpuRun [] 0 = .ok ⟨none, ⟨none, none, none, none, none⟩, 0⟩ := rfl
  obtain ⟨hgpu, _⟩ :=
    gpu_compile_zero_cpu_compile_absent [GpuLine.peak 1000000] [] 5
  obtain ⟨hct, hrec⟩ := hgpu rfl
  refine ⟨rfl, hct, ?_, rfl, ?_⟩
  · rw [hg]
    exact congrArg Except.ok (hrec _ hg)
  · rw [hc]
    exact congrArg Except.ok
      ((gpu_compile_zero_cpu_compile_absent [] [] 0).2 rfl _ hc)
